import Mathlib

/-!
Verification development for the `Embedded_task` TCP server
(`src/server.rs`): a shallow embedding of the per-connection message
dispatch (`Client::handle` and the per-client loop spawned in
`Server::run`), the accept loop of `Server::run`, and the
reference-counted per-address server registry (`Server::new`,
`Server::stop`, the global `SERVERS` map).
-/

/-! ## Message envelope

Modelled from the spec: the prost-generated `message` module
(`ClientMessage`, `ServerMessage`, `EchoMessage`, `AddRequest`,
`AddResponse`) is not part of `src/`; the shapes below follow spec §3
("Envelope: a tagged union of request variants {Echo{content: string},
AddRequest{a: int32, b: int32}} and response variants {Echo{content:
string}, AddResponse{result: int32}}; exactly one variant is populated
per envelope") and the fields used by `src/server.rs`.  The int32
fields are carried as `Int`; 32-bit range and wraparound are handled
explicitly where arithmetic occurs. -/

structure EchoMessage where
  content : String
deriving DecidableEq, Repr

structure AddRequest where
  a : Int
  b : Int
deriving DecidableEq, Repr

structure AddResponse where
  result : Int
deriving DecidableEq, Repr

/-- The `oneof` payload of a `ClientMessage` (`client_message::Message`). -/
inductive ClientMsg where
  | EchoMessage (m : EchoMessage)
  | AddRequest (m : AddRequest)
deriving DecidableEq, Repr

/-- `ClientMessage`: the request envelope; `message = none` is an envelope
with no populated variant. -/
structure ClientMessage where
  message : Option ClientMsg
deriving DecidableEq, Repr

/-- The `oneof` payload of a `ServerMessage` (`server_message::Message`). -/
inductive ServerMsg where
  | EchoMessage (m : EchoMessage)
  | AddResponse (m : AddResponse)
deriving DecidableEq, Repr

/-- `ServerMessage`: the response envelope. -/
structure ServerMessage where
  message : Option ServerMsg
deriving DecidableEq, Repr

/-! ## Logging and outcomes -/

/-- Log levels of the `log` crate macros used by `src/server.rs`
(`info!`, `warn!`, `error!`). -/
inductive LogLevel where
  | info
  | warn
  | error
deriving DecidableEq, Repr

structure LogEntry where
  level : LogLevel
  msg : String
deriving DecidableEq, Repr

/-- Error kinds of `std::io::ErrorKind` that `Client::handle` constructs. -/
inductive IOErrorKind where
  | connectionAborted
deriving DecidableEq, Repr

/-- An `std::io::Error` value as built by `Client::handle`. -/
structure IOError where
  kind : IOErrorKind
  msg : String
deriving DecidableEq, Repr

/-- The observable outcome of one `Client::handle` call:
`ok sent` is `Ok(())` with `sent` the (at most one) encoded response
written in full and flushed; `err e` is `Err(e)`; `panic` is a thread
panic (integer overflow with overflow checks enabled). -/
inductive HandleOutcome where
  | ok (sent : Option ServerMessage)
  | err (e : IOError)
  | panic
deriving DecidableEq, Repr

/-! ## 32-bit arithmetic

`Client::handle` computes `add_request.a + add_request.b` with Rust's
plain `+` on `i32`.  Rust defines this operator to panic on overflow
when overflow checks are enabled (the default for the dev/test
profiles) and to wrap two's-complement when they are disabled (the
default for release); `rustAddI32` models both, selected by the
`overflowChecks` flag, with `none` standing for the panic. -/

def i32_min : Int := -(2 ^ 31)

def i32_max : Int := 2 ^ 31 - 1

/-- Reduce an integer to the two's-complement 32-bit value it denotes. -/
def wrap32 (n : Int) : Int := (n + 2 ^ 31) % 2 ^ 32 - 2 ^ 31

/-- Rust `+` on `i32`: `none` = overflow panic (checks on); wraparound
with checks off. -/
def rustAddI32 (overflowChecks : Bool) (a b : Int) : Option Int :=
  if overflowChecks then
    if i32_min ≤ a + b ∧ a + b ≤ i32_max then some (a + b) else none
  else
    some (wrap32 (a + b))

/-! ## `Client::handle` (src/server.rs lines 32-82)

One receive-dispatch-reply step.  The socket read and the protobuf
codec are external collaborators (spec §1): a step's input is the
number of bytes the read returned and the outcome of
`ClientMessage::decode` on those bytes (`none` = decode failure).
Note the source's nested `if bytes_read == 0 { if bytes_read == 0 {
return Err(...); } return Ok(()); }`: the inner branch always fires,
so a zero-byte read returns
`Err(ConnectionAborted, "Client disconnected")`. -/

def Client.handle (overflowChecks : Bool) (bytes_read : Nat)
    (decoded : Option ClientMessage) : HandleOutcome × List LogEntry :=
  if bytes_read = 0 then
    (.err ⟨.connectionAborted, "Client disconnected"⟩, [])
  else
    match decoded with
    | some cm =>
      match cm.message with
      | some (.EchoMessage echo_message) =>
        (.ok (some ⟨some (.EchoMessage echo_message)⟩),
         [⟨.info, "Received EchoMessage: " ++ echo_message.content⟩])
      | some (.AddRequest add_request) =>
        match rustAddI32 overflowChecks add_request.a add_request.b with
        | some result =>
          (.ok (some ⟨some (.AddResponse ⟨result⟩)⟩),
           [⟨.info, "Received AddRequest"⟩])
        | none => (.panic, [⟨.info, "Received AddRequest"⟩])
      | none => (.ok none, [⟨.error, "Received message with no content"⟩])
    | none => (.ok none, [⟨.error, "Failed to decode message"⟩])

/-! ## The per-client loop (src/server.rs lines 159-167)

`Server::run` spawns, per accepted socket,
`while is_running.load() { if let Err(e) = client.handle() {
error!("Error handling client: {}", e); break; } }`.
A loop input is the `is_running` value observed at the loop head
together with that iteration's read/decode outcome; the trace records
each iteration's `handle` outcome and the log entries it produced
(including the driver's own `error!` on an `Err`). -/

def clientLoop (overflowChecks : Bool) :
    List (Bool × Nat × Option ClientMessage) → List (HandleOutcome × List LogEntry)
  | [] => []
  | (is_running, bytes_read, decoded) :: rest =>
    if is_running then
      match Client.handle overflowChecks bytes_read decoded with
      | (.ok sent, logs) => (.ok sent, logs) :: clientLoop overflowChecks rest
      | (.err e, logs) =>
        [(.err e, logs ++ [⟨.error, "Error handling client: " ++ e.msg⟩])]
      | (.panic, logs) => [(.panic, logs)]
    else []

/-! ## The accept loop of `Server::run` (src/server.rs lines 150-181)

`run` sets `is_running`, then loops `while is_running.load()` over
`listener.accept()`: a successful accept logs the peer and spawns a
client thread; `WouldBlock` sleeps 100 ms; any other accept error is
logged and the loop continues.  No statement inside the loop can
return an error, and after the loop `run` returns `Ok(())`.  The
schedule pairs the `is_running` value observed at each loop head with
that iteration's accept outcome; `runLoop` returns the events of the
processed iterations and whether the loop has exited (`run` returned
`Ok(())`). -/

/-- Outcome of one `listener.accept()` call. -/
inductive AcceptOutcome where
  | conn (peer : String)
  | wouldBlock
  | acceptErr (msg : String)
deriving DecidableEq, Repr

/-- Observable events of the accept loop. -/
inductive RunEvent where
  | spawned (peer : String)
  | slept (ms : Nat)
  | logged (e : LogEntry)
deriving DecidableEq, Repr

def runLoop : List (Bool × AcceptOutcome) → List RunEvent × Bool
  | [] => ([], false)
  | (is_running, out) :: rest =>
    if is_running then
      let evs :=
        match out with
        | .conn peer =>
          [RunEvent.logged ⟨.info, "New client connected: " ++ peer⟩,
           RunEvent.spawned peer]
        | .wouldBlock => [RunEvent.slept 100]
        | .acceptErr msg =>
          [RunEvent.logged ⟨.error, "Error accepting connection: " ++ msg⟩]
      let r := runLoop rest
      (evs ++ r.1, r.2)
    else ([], true)

/-! ## Registry and `Server` lifecycle (src/server.rs lines 85-207)

`Server` owns a listener, a running flag and a reference count
(`client_count`); the global `SERVERS: HashMap<String, Arc<Server>>`
maps address strings to shared server instances.  The embedding uses
an explicit heap: `SystemState.heap` maps a server id (allocation
index) to its mutable state, and `servers` is the `SERVERS`
association list from address key to server id; distinct keys mapping
to the same id model `Arc` sharing.  `local_addr` stands for
`listener.local_addr().unwrap().to_string()`, fixed at bind time; it
is supplied to `Server.new` by the caller because address resolution
is the OS's, and it need not equal the `addr` key used for insertion
(e.g. `"localhost:9000"` resolving to `"127.0.0.1:9000"`). -/

structure Server where
  local_addr : String
  is_running : Bool
  client_count : Nat
deriving DecidableEq, Repr

structure SystemState where
  heap : Nat → Server
  next : Nat
  servers : List (String × Nat)

/-- Update one server in the heap. -/
def SystemState.setServer (st : SystemState) (sid : Nat) (s : Server) :
    SystemState :=
  { st with heap := fun i => if i = sid then s else st.heap i }

/-- `Server::new(addr)` (src/server.rs lines 101-140): if `SERVERS`
already has an entry for `addr`, increment its `client_count` and
return a clone of that `Arc`; otherwise bind (`bindOk` is the OS's
verdict, `local_addr` the bound listener's local address) and, on
success, insert a fresh server with `is_running = false` and
`client_count = 1` under the key `addr`; on bind failure return the
error (`none`) leaving the state unchanged. -/
def Server.new (st : SystemState) (addr local_addr : String) (bindOk : Bool) :
    SystemState × Option Nat :=
  match st.servers.lookup addr with
  | some sid =>
    (st.setServer sid { st.heap sid with
        client_count := (st.heap sid).client_count + 1 }, some sid)
  | none =>
    if bindOk then
      ({ heap := fun i => if i = st.next then ⟨local_addr, false, 1⟩ else st.heap i,
         next := st.next + 1,
         servers := (addr, st.next) :: st.servers }, some st.next)
    else (st, none)

/-- `Server::run`'s registry-visible effect (src/server.rs line 144):
store `true` into `is_running`.  (The accept loop itself is `runLoop`
above; it does not touch the registry.) -/
def Server.run (st : SystemState) (sid : Nat) : SystemState :=
  st.setServer sid { st.heap sid with is_running := true }

/-- `Server::stop` (src/server.rs lines 184-206): lock `client_count`;
if it is 1 and `is_running` holds, clear the flag and remove from
`SERVERS` the entry keyed by `listener.local_addr().to_string()`; if
it is 1 and the flag is already clear, only warn (no state change);
otherwise decrement the count. -/
def Server.stop (st : SystemState) (sid : Nat) : SystemState :=
  let s := st.heap sid
  if s.client_count = 1 then
    if s.is_running then
      { (st.setServer sid { s with is_running := false }) with
        servers := st.servers.filter (fun p => p.1 ≠ s.local_addr) }
    else st
  else st.setServer sid { s with client_count := s.client_count - 1 }

/-- An interleaving of registry operations (spec §4.1's
`acquire`/`release` plus `run`), to state trace invariants. -/
inductive Op where
  | acquire (addr local_addr : String) (bindOk : Bool)
  | runOp (sid : Nat)
  | stopOp (sid : Nat)
deriving DecidableEq, Repr

def applyOp (st : SystemState) : Op → SystemState
  | .acquire addr local_addr bindOk => (Server.new st addr local_addr bindOk).1
  | .runOp sid => Server.run st sid
  | .stopOp sid => Server.stop st sid

/-- The state at process start: empty `SERVERS`, nothing allocated. -/
def initState : SystemState :=
  { heap := fun _ => ⟨"", false, 0⟩, next := 0, servers := [] }

def execOps (ops : List Op) : SystemState :=
  List.foldl applyOp initState ops

/-- Registry invariant (spec §3): at most one Server per address key,
and every registered server's reference count is at least 1. -/
def RegistryInv (st : SystemState) : Prop :=
  (st.servers.map Prod.fst).Nodup ∧
    ∀ p ∈ st.servers, 1 ≤ (st.heap p.2).client_count


/-! ## Helper lemmas -/

theorem lookup_filter_self (l : List (String × Nat)) (a : String) :
    (l.filter fun p => p.1 ≠ a).lookup a = none := by
  induction l with
  | nil => rfl
  | cons x xs ih =>
    obtain ⟨k, v⟩ := x
    by_cases hx : k = a
    · simpa [List.filter_cons, hx] using ih
    · have hb : (a == k) = false := beq_false_of_ne (Ne.symm hx)
      simpa [List.filter_cons, hx, List.lookup_cons, hb] using ih

theorem lookup_filter_ne (l : List (String × Nat)) (a k : String) (h : k ≠ a) :
    (l.filter fun p => p.1 ≠ a).lookup k = l.lookup k := by
  induction l with
  | nil => rfl
  | cons x xs ih =>
    obtain ⟨k1, v⟩ := x
    by_cases hx : k1 = a
    · have hb : (k == a) = false := beq_false_of_ne h
      simpa [List.filter_cons, hx, List.lookup_cons, hb] using ih
    · by_cases hk : k = k1
      · simp [List.filter_cons, List.lookup_cons, hx, hk]
      · have hb2 : (k == k1) = false := beq_false_of_ne hk
        simpa [List.filter_cons, List.lookup_cons, hx, hb2] using ih

theorem lookup_none_not_mem_keys (l : List (String × Nat)) (a : String)
    (h : l.lookup a = none) : a ∉ l.map Prod.fst := by
  induction l with
  | nil => simp
  | cons x xs ih =>
    obtain ⟨k, v⟩ := x
    by_cases hk : a = k
    · rw [List.lookup_cons] at h
      simp [hk] at h
    · have hb : (a == k) = false := beq_false_of_ne hk
      rw [List.lookup_cons, hb] at h
      simpa [hk] using ih h

/-! ## Claim theorems: connection dispatch -/

/-- C1: handling an AddRequest computes `add_request.a + add_request.b`
with Rust's unchecked `+` on i32.  At `a = 2147483647, b = 1` this
panics (traps) in builds with overflow checks enabled — the cargo
dev/test default — instead of the wraparound the claim requires; only
with overflow checks disabled (release builds) does it produce an
AddResponse with result `-2147483648`. -/
theorem C1_add_overflow_traps_in_checked_builds :
    (Client.handle true 5 (some ⟨some (.AddRequest ⟨2147483647, 1⟩)⟩)).1 =
      .panic ∧
    (Client.handle false 5 (some ⟨some (.AddRequest ⟨2147483647, 1⟩)⟩)).1 =
      .ok (some ⟨some (.AddResponse ⟨-2147483648⟩)⟩) := by decide

/-- C1 (in-range part): when `a + b` does not overflow i32, handling an
AddRequest yields an AddResponse whose result is exactly `a + b`,
in every build configuration. -/
theorem C1_add_in_range (overflowChecks : Bool) (bytes_read : Nat) (a b : Int)
    (hn : bytes_read ≠ 0)
    (hlo : i32_min ≤ a + b) (hhi : a + b ≤ i32_max) :
    Client.handle overflowChecks bytes_read (some ⟨some (.AddRequest ⟨a, b⟩)⟩) =
      (.ok (some ⟨some (.AddResponse ⟨a + b⟩)⟩),
       [⟨.info, "Received AddRequest"⟩]) := by
  have hwrap : wrap32 (a + b) = a + b := by
    unfold wrap32
    have h1 : (0 : Int) ≤ a + b + 2 ^ 31 := by
      have := hlo; unfold i32_min at this; omega
    have h2 : a + b + 2 ^ 31 < 2 ^ 32 := by
      have := hhi; unfold i32_max at this; omega
    rw [Int.emod_eq_of_lt h1 h2]
    ring
  unfold Client.handle rustAddI32
  cases overflowChecks <;> simp [hn, hwrap, hlo, hhi]

theorem C1_add_in_range_witness :
    (3 : Nat) ≠ 0 ∧ i32_min ≤ (2 : Int) + 3 ∧ (2 : Int) + 3 ≤ i32_max ∧
    Client.handle true 3 (some ⟨some (.AddRequest ⟨2, 3⟩)⟩) =
      (.ok (some ⟨some (.AddResponse ⟨2 + 3⟩)⟩),
       [⟨.info, "Received AddRequest"⟩]) :=
  ⟨by decide, by decide, by decide,
   C1_add_in_range true 3 2 3 (by decide) (by decide) (by decide)⟩

/-- C3: for every UTF-8 string `s`, handling an Echo request with
content `s` writes back exactly one encoded Echo response whose
content is exactly `s`, together with the info log — the content is
unchanged by the server. -/
theorem C3_echo_same_content (overflowChecks : Bool) (bytes_read : Nat)
    (s : String) (hn : bytes_read ≠ 0) :
    Client.handle overflowChecks bytes_read
        (some ⟨some (.EchoMessage ⟨s⟩)⟩) =
      (.ok (some ⟨some (.EchoMessage ⟨s⟩)⟩),
       [⟨.info, "Received EchoMessage: " ++ s⟩]) := by
  simp [Client.handle, hn]

theorem C3_echo_same_content_witness :
    (7 : Nat) ≠ 0 ∧
    Client.handle true 7 (some ⟨some (.EchoMessage ⟨"hello"⟩)⟩) =
      (.ok (some ⟨some (.EchoMessage ⟨"hello"⟩)⟩),
       [⟨.info, "Received EchoMessage: " ++ "hello"⟩]) :=
  ⟨by decide, C3_echo_same_content true 7 "hello" (by decide)⟩

/-- C4: a non-empty read whose bytes fail to decode, or decode to an
envelope with no populated variant, makes the step log the condition
at error level and return `Ok`, so the loop spawned by `Server::run`
continues; a subsequent valid Echo request on the same connection
still succeeds. -/
theorem C4_malformed_does_not_terminate (overflowChecks : Bool)
    (n m : Nat) (hn : n ≠ 0) (hm : m ≠ 0) (s : String)
    (rest : List (Bool × Nat × Option ClientMessage)) :
    Client.handle overflowChecks n none =
      (.ok none, [⟨.error, "Failed to decode message"⟩]) ∧
    Client.handle overflowChecks n (some ⟨none⟩) =
      (.ok none, [⟨.error, "Received message with no content"⟩]) ∧
    clientLoop overflowChecks
        ((true, n, none) ::
         (true, m, some ⟨some (.EchoMessage ⟨s⟩)⟩) :: rest) =
      (.ok none, [⟨.error, "Failed to decode message"⟩]) ::
        (.ok (some ⟨some (.EchoMessage ⟨s⟩)⟩),
         [⟨.info, "Received EchoMessage: " ++ s⟩]) ::
        clientLoop overflowChecks rest ∧
    clientLoop overflowChecks
        ((true, n, some ⟨none⟩) ::
         (true, m, some ⟨some (.EchoMessage ⟨s⟩)⟩) :: rest) =
      (.ok none, [⟨.error, "Received message with no content"⟩]) ::
        (.ok (some ⟨some (.EchoMessage ⟨s⟩)⟩),
         [⟨.info, "Received EchoMessage: " ++ s⟩]) ::
        clientLoop overflowChecks rest := by
  refine ⟨by simp [Client.handle, hn], by simp [Client.handle, hn], ?_, ?_⟩ <;>
    simp [clientLoop, Client.handle, hn, hm]

theorem C4_malformed_does_not_terminate_witness :
    (1 : Nat) ≠ 0 ∧ (2 : Nat) ≠ 0 ∧
    clientLoop true
        ((true, 1, none) ::
         (true, 2, some ⟨some (.EchoMessage ⟨"ok"⟩)⟩) :: []) =
      (.ok none, [⟨.error, "Failed to decode message"⟩]) ::
        (.ok (some ⟨some (.EchoMessage ⟨"ok"⟩)⟩),
         [⟨.info, "Received EchoMessage: " ++ "ok"⟩]) ::
        clientLoop true [] :=
  ⟨by decide, by decide,
   (C4_malformed_does_not_terminate true 1 2 (by decide) (by decide)
      "ok" []).2.2.1⟩

/-- C5 counterexample: a zero-byte read makes `Client::handle` return
`Err(ConnectionAborted, "Client disconnected")`, and the per-client
loop in `Server::run` then logs `error!("Error handling client: ...")`
— the clean disconnect IS logged as an error-level failure (the same
generic error-level log as any other handler failure), contrary to the
claim that it is not logged beyond a disconnect notice. -/
theorem C5_disconnect_error_logged_cex :
    clientLoop true [(true, 0, none)] =
      [(.err ⟨.connectionAborted, "Client disconnected"⟩,
        [⟨.error, "Error handling client: Client disconnected"⟩])] ∧
    (⟨.error, "Error handling client: Client disconnected"⟩ : LogEntry) ∈
      ((clientLoop true [(true, 0, none)]).map Prod.snd).flatten := by decide

/-- C5 (amended): a zero-byte read terminates the Connection with
`Err(ConnectionAborted, "Client disconnected")` — reported as a
disconnect condition, not as a protocol error — but the per-client
loop then logs it at error level, with the same generic
"Error handling client" message as any other handler failure. -/
theorem C5_zero_read_disconnect (overflowChecks : Bool)
    (decoded : Option ClientMessage)
    (rest : List (Bool × Nat × Option ClientMessage)) :
    Client.handle overflowChecks 0 decoded =
      (.err ⟨.connectionAborted, "Client disconnected"⟩, []) ∧
    clientLoop overflowChecks ((true, 0, decoded) :: rest) =
      [(.err ⟨.connectionAborted, "Client disconnected"⟩,
        [⟨.error, "Error handling client: Client disconnected"⟩])] := by
  constructor
  · simp [Client.handle]
  · simp [clientLoop, Client.handle]

/-- C7: in the accept loop of `Server::run`, a `WouldBlock` accept
causes a 100 ms sleep and the loop retries; any other accept error is
logged at error level and the loop continues (no schedule makes the
loop produce an error return); and the loop exits — `run` returning
normally — exactly when the observed running flag is false. -/
theorem C7_accept_loop (sched rest : List (Bool × AcceptOutcome))
    (msg : String) (out : AcceptOutcome) :
    runLoop ((true, .wouldBlock) :: rest) =
      (RunEvent.slept 100 :: (runLoop rest).1, (runLoop rest).2) ∧
    runLoop ((true, .acceptErr msg) :: rest) =
      (RunEvent.logged ⟨.error, "Error accepting connection: " ++ msg⟩ ::
         (runLoop rest).1,
       (runLoop rest).2) ∧
    runLoop ((false, out) :: rest) = ([], true) ∧
    ((runLoop sched).2 = true ↔ ∃ e ∈ sched, e.1 = false) := by
  refine ⟨by simp [runLoop], by simp [runLoop], by simp [runLoop], ?_⟩
  induction sched with
  | nil => simp [runLoop]
  | cons x xs ih =>
    obtain ⟨flag, o⟩ := x
    cases flag
    · simp [runLoop]
    · simpa [runLoop] using ih

/-! ## Claim theorems: registry and server lifecycle -/

/-- C9: `Server::stop` on a server whose reference count is 1 and whose
running flag is already clear changes nothing: the heap (so every
server's flag and count) and the `SERVERS` mapping are exactly as
before; only a warning is logged. -/
theorem C9_stop_when_stopped_is_noop (st : SystemState) (sid : Nat)
    (hcnt : (st.heap sid).client_count = 1)
    (hrun : (st.heap sid).is_running = false) :
    Server.stop st sid = st := by
  simp [Server.stop, hcnt, hrun]

theorem C9_stop_when_stopped_is_noop_witness :
    ((execOps [.acquire "127.0.0.1:9000" "127.0.0.1:9000" true]).heap 0).client_count = 1 ∧
    ((execOps [.acquire "127.0.0.1:9000" "127.0.0.1:9000" true]).heap 0).is_running = false ∧
    Server.stop (execOps [.acquire "127.0.0.1:9000" "127.0.0.1:9000" true]) 0 =
      execOps [.acquire "127.0.0.1:9000" "127.0.0.1:9000" true] :=
  ⟨by decide, by decide,
   C9_stop_when_stopped_is_noop
     (execOps [.acquire "127.0.0.1:9000" "127.0.0.1:9000" true]) 0
     (by decide) (by decide)⟩

/-- C10: the entry that the final `Server::stop` removes is keyed by
`listener.local_addr().to_string()`: after the stop, no entry remains
under the local-address key, while an entry inserted by `Server::new`
under a different acquire key still maps to the same server. -/
theorem C10_stop_removes_only_local_addr_key (st : SystemState) (sid : Nat)
    (k : String)
    (hcnt : (st.heap sid).client_count = 1)
    (hrun : (st.heap sid).is_running = true)
    (hmem : st.servers.lookup k = some sid)
    (hne : k ≠ (st.heap sid).local_addr) :
    (Server.stop st sid).servers.lookup ((st.heap sid).local_addr) = none ∧
    (Server.stop st sid).servers.lookup k = some sid := by
  constructor
  · simp only [Server.stop, hcnt, hrun, if_pos, if_true]
    exact lookup_filter_self st.servers (st.heap sid).local_addr
  · simp only [Server.stop, hcnt, hrun, if_pos, if_true]
    rw [lookup_filter_ne st.servers (st.heap sid).local_addr k hne]
    exact hmem

theorem C10_stop_removes_only_local_addr_key_witness :
    (((execOps [.acquire "localhost:9000" "127.0.0.1:9000" true, .runOp 0]).heap 0).client_count = 1) ∧
    (((execOps [.acquire "localhost:9000" "127.0.0.1:9000" true, .runOp 0]).heap 0).is_running = true) ∧
    ((execOps [.acquire "localhost:9000" "127.0.0.1:9000" true, .runOp 0]).servers.lookup "localhost:9000" = some 0) ∧
    ("localhost:9000" ≠ ((execOps [.acquire "localhost:9000" "127.0.0.1:9000" true, .runOp 0]).heap 0).local_addr) ∧
    ((Server.stop (execOps [.acquire "localhost:9000" "127.0.0.1:9000" true, .runOp 0]) 0).servers.lookup
        (((execOps [.acquire "localhost:9000" "127.0.0.1:9000" true, .runOp 0]).heap 0).local_addr) = none ∧
     (Server.stop (execOps [.acquire "localhost:9000" "127.0.0.1:9000" true, .runOp 0]) 0).servers.lookup
        "localhost:9000" = some 0) :=
  ⟨by decide, by decide, by decide, by decide,
   C10_stop_removes_only_local_addr_key
     (execOps [.acquire "localhost:9000" "127.0.0.1:9000" true, .runOp 0]) 0
     "localhost:9000" (by decide) (by decide) (by decide) (by decide)⟩

/-- C2 counterexample: a server acquired twice under the key
`"localhost:9000"` while its listener's local address resolves to
`"127.0.0.1:9000"` — after `run`, one `stop` leaves it running with
count 1, but the second `stop`, which clears the running flag, removes
by the local-address key and so does NOT remove the server's entry:
it is still registered under `"localhost:9000"`, refuting the claim
that the second release removes the entry from the Registry. -/
theorem C2_release_twice_cex :
    (((execOps [.acquire "localhost:9000" "127.0.0.1:9000" true,
                .acquire "localhost:9000" "127.0.0.1:9000" true,
                .runOp 0, .stopOp 0]).heap 0).client_count = 1 ∧
     ((execOps [.acquire "localhost:9000" "127.0.0.1:9000" true,
                .acquire "localhost:9000" "127.0.0.1:9000" true,
                .runOp 0, .stopOp 0]).heap 0).is_running = true) ∧
    ((execOps [.acquire "localhost:9000" "127.0.0.1:9000" true,
               .acquire "localhost:9000" "127.0.0.1:9000" true,
               .runOp 0, .stopOp 0, .stopOp 0]).heap 0).is_running = false ∧
    (execOps [.acquire "localhost:9000" "127.0.0.1:9000" true,
              .acquire "localhost:9000" "127.0.0.1:9000" true,
              .runOp 0, .stopOp 0, .stopOp 0]).servers.lookup
        "localhost:9000" = some 0 := by decide

/-- C2 (amended): for every registered, running server whose Registry
key equals its listener's local address string and whose reference
count is 2: one `stop` leaves it running with count 1 and the mapping
untouched, and a second `stop` clears the running flag and removes the
entry (the release that finds the count at 1 with the flag set is the
one that clears the flag and removes the entry keyed by the local
address; the count itself never reaches zero). -/
theorem C2_release_twice (st : SystemState) (k : String) (sid : Nat)
    (_hmem : st.servers.lookup k = some sid)
    (hkey : (st.heap sid).local_addr = k)
    (hrun : (st.heap sid).is_running = true)
    (hcnt : (st.heap sid).client_count = 2) :
    ((Server.stop st sid).heap sid).is_running = true ∧
    ((Server.stop st sid).heap sid).client_count = 1 ∧
    (Server.stop st sid).servers = st.servers ∧
    ((Server.stop (Server.stop st sid) sid).heap sid).is_running = false ∧
    (Server.stop (Server.stop st sid) sid).servers.lookup k = none := by
  have e1 : Server.stop st sid = st.setServer sid
      { st.heap sid with client_count := 1 } := by
    simp [Server.stop, hcnt]
  have h1 : (Server.stop st sid).heap sid =
      { st.heap sid with client_count := 1 } := by
    rw [e1]; simp [SystemState.setServer]
  have h1s : (Server.stop st sid).servers = st.servers := by
    rw [e1]; rfl
  have e2 : Server.stop (Server.stop st sid) sid =
      { ((Server.stop st sid).setServer sid
          { (Server.stop st sid).heap sid with is_running := false }) with
        servers := (Server.stop st sid).servers.filter
          (fun p => p.1 ≠ ((Server.stop st sid).heap sid).local_addr) } := by
    rw [Server.stop]
    simp [h1, hrun]
  refine ⟨?_, ?_, h1s, ?_, ?_⟩
  · rw [h1]; exact hrun
  · rw [h1]
  · rw [e2]; simp [SystemState.setServer]
  · rw [e2]
    simp only [h1, h1s]
    have : ({ st.heap sid with client_count := 1 } : Server).local_addr = k := hkey
    rw [this]
    exact lookup_filter_self st.servers k

theorem C2_release_twice_witness :
    ((execOps [.acquire "127.0.0.1:9000" "127.0.0.1:9000" true,
               .acquire "127.0.0.1:9000" "127.0.0.1:9000" true,
               .runOp 0]).servers.lookup "127.0.0.1:9000" = some 0 ∧
     ((execOps [.acquire "127.0.0.1:9000" "127.0.0.1:9000" true,
                .acquire "127.0.0.1:9000" "127.0.0.1:9000" true,
                .runOp 0]).heap 0).local_addr = "127.0.0.1:9000" ∧
     ((execOps [.acquire "127.0.0.1:9000" "127.0.0.1:9000" true,
                .acquire "127.0.0.1:9000" "127.0.0.1:9000" true,
                .runOp 0]).heap 0).is_running = true ∧
     ((execOps [.acquire "127.0.0.1:9000" "127.0.0.1:9000" true,
                .acquire "127.0.0.1:9000" "127.0.0.1:9000" true,
                .runOp 0]).heap 0).client_count = 2) ∧
    (((Server.stop (execOps [.acquire "127.0.0.1:9000" "127.0.0.1:9000" true,
                             .acquire "127.0.0.1:9000" "127.0.0.1:9000" true,
                             .runOp 0]) 0).heap 0).is_running = true ∧
     ((Server.stop (execOps [.acquire "127.0.0.1:9000" "127.0.0.1:9000" true,
                             .acquire "127.0.0.1:9000" "127.0.0.1:9000" true,
                             .runOp 0]) 0).heap 0).client_count = 1 ∧
     (Server.stop (execOps [.acquire "127.0.0.1:9000" "127.0.0.1:9000" true,
                            .acquire "127.0.0.1:9000" "127.0.0.1:9000" true,
                            .runOp 0]) 0).servers =
       (execOps [.acquire "127.0.0.1:9000" "127.0.0.1:9000" true,
                 .acquire "127.0.0.1:9000" "127.0.0.1:9000" true,
                 .runOp 0]).servers ∧
     ((Server.stop (Server.stop (execOps [.acquire "127.0.0.1:9000" "127.0.0.1:9000" true,
                                          .acquire "127.0.0.1:9000" "127.0.0.1:9000" true,
                                          .runOp 0]) 0) 0).heap 0).is_running = false ∧
     (Server.stop (Server.stop (execOps [.acquire "127.0.0.1:9000" "127.0.0.1:9000" true,
                                         .acquire "127.0.0.1:9000" "127.0.0.1:9000" true,
                                         .runOp 0]) 0) 0).servers.lookup
         "127.0.0.1:9000" = none) :=
  ⟨⟨by decide, by decide, by decide, by decide⟩,
   C2_release_twice
     (execOps [.acquire "127.0.0.1:9000" "127.0.0.1:9000" true,
               .acquire "127.0.0.1:9000" "127.0.0.1:9000" true,
               .runOp 0]) "127.0.0.1:9000" 0
     (by decide) (by decide) (by decide) (by decide)⟩

/-- C6: with no entry for `addr`, `Server::new` binds and registers a
fresh server (count 1) and returns it; calling it again with the same
address, without an intervening stop, returns the same server id —
the same underlying instance — with reference count 2.  In general
(second group of hypotheses), `Server::new` on an existing entry
returns that entry's id and increments its reference count by 1, with
no other registry change. -/
theorem C6_acquire_twice_same_instance
    (st st' : SystemState) (addr la la2 k la' : String) (b2 b : Bool)
    (sid : Nat)
    (habs : st.servers.lookup addr = none)
    (hreg : st'.servers.lookup k = some sid) :
    (Server.new st addr la true).2 = some st.next ∧
    ((Server.new st addr la true).1.heap st.next).client_count = 1 ∧
    (Server.new (Server.new st addr la true).1 addr la2 b2).2 =
      some st.next ∧
    ((Server.new (Server.new st addr la true).1 addr la2 b2).1.heap
        st.next).client_count = 2 ∧
    (Server.new st' k la' b).2 = some sid ∧
    ((Server.new st' k la' b).1.heap sid).client_count =
      (st'.heap sid).client_count + 1 ∧
    (Server.new st' k la' b).1.servers = st'.servers := by
  have e1 : Server.new st addr la true =
      ({ heap := fun i => if i = st.next then ⟨la, false, 1⟩ else st.heap i,
         next := st.next + 1,
         servers := (addr, st.next) :: st.servers }, some st.next) := by
    rw [Server.new, habs]
    rfl
  have egen : ∀ (t : SystemState), t.servers.lookup k = some sid →
      Server.new t k la' b =
        (t.setServer sid { t.heap sid with
            client_count := (t.heap sid).client_count + 1 }, some sid) := by
    intro t ht
    rw [Server.new, ht]
  have hlook2 : (Server.new st addr la true).1.servers.lookup addr =
      some st.next := by
    rw [e1]
    simp [List.lookup_cons]
  have e2 : Server.new (Server.new st addr la true).1 addr la2 b2 =
      ((Server.new st addr la true).1.setServer st.next
        { (Server.new st addr la true).1.heap st.next with
            client_count :=
              ((Server.new st addr la true).1.heap st.next).client_count + 1 },
       some st.next) := by
    rw [Server.new, hlook2]
  have hheap1 : (Server.new st addr la true).1.heap st.next =
      ⟨la, false, 1⟩ := by
    rw [e1]; simp
  refine ⟨by rw [e1], by rw [hheap1], by rw [e2], ?_, ?_, ?_, ?_⟩
  · rw [e2]
    simp [SystemState.setServer, hheap1]
  · rw [egen st' hreg]
  · rw [egen st' hreg]
    simp [SystemState.setServer]
  · rw [egen st' hreg]
    rfl

theorem C6_acquire_twice_same_instance_witness :
    (initState.servers.lookup "127.0.0.1:9000" = none ∧
     (execOps [.acquire "127.0.0.1:9000" "127.0.0.1:9000" true]).servers.lookup
         "127.0.0.1:9000" = some 0) ∧
    ((Server.new initState "127.0.0.1:9000" "127.0.0.1:9000" true).2 =
       some initState.next ∧
     ((Server.new initState "127.0.0.1:9000" "127.0.0.1:9000" true).1.heap
         initState.next).client_count = 1 ∧
     (Server.new (Server.new initState "127.0.0.1:9000" "127.0.0.1:9000" true).1
         "127.0.0.1:9000" "127.0.0.1:9000" true).2 = some initState.next ∧
     ((Server.new (Server.new initState "127.0.0.1:9000" "127.0.0.1:9000" true).1
         "127.0.0.1:9000" "127.0.0.1:9000" true).1.heap
         initState.next).client_count = 2 ∧
     (Server.new (execOps [.acquire "127.0.0.1:9000" "127.0.0.1:9000" true])
         "127.0.0.1:9000" "10.0.0.1:1" false).2 = some 0 ∧
     ((Server.new (execOps [.acquire "127.0.0.1:9000" "127.0.0.1:9000" true])
         "127.0.0.1:9000" "10.0.0.1:1" false).1.heap 0).client_count =
       ((execOps [.acquire "127.0.0.1:9000" "127.0.0.1:9000" true]).heap
           0).client_count + 1 ∧
     (Server.new (execOps [.acquire "127.0.0.1:9000" "127.0.0.1:9000" true])
         "127.0.0.1:9000" "10.0.0.1:1" false).1.servers =
       (execOps [.acquire "127.0.0.1:9000" "127.0.0.1:9000" true]).servers) :=
  ⟨⟨by decide, by decide⟩,
   C6_acquire_twice_same_instance initState
     (execOps [.acquire "127.0.0.1:9000" "127.0.0.1:9000" true])
     "127.0.0.1:9000" "127.0.0.1:9000" "127.0.0.1:9000" "127.0.0.1:9000"
     "10.0.0.1:1" true false 0 (by decide) (by decide)⟩

theorem registryInv_applyOp (st : SystemState) (op : Op)
    (h : RegistryInv st) : RegistryInv (applyOp st op) := by
  obtain ⟨hnd, hcnt⟩ := h
  cases op with
  | acquire addr la bindOk =>
    show RegistryInv (Server.new st addr la bindOk).1
    cases hl : st.servers.lookup addr with
    | some sid =>
      rw [Server.new, hl]
      refine ⟨hnd, ?_⟩
      intro p hp
      simp only [SystemState.setServer]
      by_cases hps : p.2 = sid
      · simp [hps]
      · simp only [hps, if_false]
        exact hcnt p hp
    | none =>
      rw [Server.new, hl]
      cases bindOk with
      | false => exact ⟨hnd, hcnt⟩
      | true =>
        rw [if_pos rfl]
        refine ⟨?_, ?_⟩
        · simp only [List.map_cons]
          exact List.nodup_cons.2 ⟨lookup_none_not_mem_keys _ _ hl, hnd⟩
        · intro p hp
          rcases List.mem_cons.1 hp with hp1 | hp2
          · subst hp1; simp
          · by_cases hps : p.2 = st.next
            · simp [hps]
            · simp only [hps, if_false]
              exact hcnt p hp2
  | runOp sid =>
    show RegistryInv (Server.run st sid)
    refine ⟨hnd, ?_⟩
    intro p hp
    simp only [Server.run, SystemState.setServer]
    by_cases hps : p.2 = sid
    · subst hps
      simp only [if_pos rfl]
      exact hcnt p hp
    · simp only [hps, if_false]
      exact hcnt p hp
  | stopOp sid =>
    show RegistryInv (Server.stop st sid)
    rw [Server.stop]
    by_cases hc : (st.heap sid).client_count = 1
    · by_cases hr : (st.heap sid).is_running = true
      · simp only [hc, hr, if_pos, if_true]
        refine ⟨?_, ?_⟩
        · exact List.Nodup.sublist ((List.filter_sublist _).map Prod.fst) hnd
        · intro p hp
          have hp' : p ∈ st.servers := List.mem_of_mem_filter hp
          simp only [SystemState.setServer]
          by_cases hps : p.2 = sid
          · subst hps
            simp only [if_pos rfl]
            simp [hc]
          · simp only [hps, if_false]
            exact hcnt p hp'
      · simp only [hc, hr, if_true]
        simp only [Bool.not_eq_true] at hr
        simp only [hr, Bool.false_eq_true, if_false]
        exact ⟨hnd, hcnt⟩
    · simp only [hc, if_false]
      refine ⟨hnd, ?_⟩
      intro p hp
      simp only [SystemState.setServer]
      by_cases hps : p.2 = sid
      · subst hps
        simp only [if_pos rfl]
        have h1 := hcnt p hp
        show 1 ≤ (st.heap p.2).client_count - 1
        omega
      · simp only [hps, if_false]
        exact hcnt p hp

theorem registryInv_foldl (ops : List Op) :
    ∀ st, RegistryInv st → RegistryInv (List.foldl applyOp st ops) := by
  induction ops with
  | nil => intro st h; exact h
  | cons op rest ih =>
    intro st h
    exact ih _ (registryInv_applyOp st op h)

/-- C8: every interleaving of acquire, run and release operations,
starting from the empty registry, preserves the invariant: the
`SERVERS` mapping holds at most one entry per address key, and every
registered server's reference count is at least 1. -/
theorem C8_registry_invariant (ops : List Op) : RegistryInv (execOps ops) :=
  registryInv_foldl ops initState ⟨by simp [initState], by simp [initState]⟩
